import Mathlib

/-!
Shallow embedding of three Kibana source fragments:

* the Elasticsearch client logging wrapper (`configureClient`,
  `convertQueryString`, `ensureString`, `getErrorMessage`,
  `getResponseMessage`, `addLogging`);
* the `UrlDrilldown` action definition
  (x-pack/plugins/drilldowns/url_drilldown/public/lib/url_drilldown.tsx);
* the `DatatableVisualization` lazy registration shim
  (x-pack/plugins/lens/public/datatable_visualization/index.ts).

JavaScript values are modelled with explicit `Option` for
`undefined`/`null`, a small `Json` type for plain objects, and JS object
literals as association lists with insertion order and unique keys.
External collaborators (the `querystring` module, `JSON.stringify`, the
`url_drilldown_scope` helpers, `@kbn/std`'s `getFlattenedObject`, the
`ui_actions_enhanced` template compiler) are either given small faithful
models or abstracted as function parameters, since their definitions are
outside the analysed files; the claims do not depend on their internals.
Effects (logger calls, navigation, plugin registrations) are reified as
values returned by the embedded functions.
-/

/-- A JSON-like value standing for a plain JavaScript value. Objects are
association lists in insertion order. -/
inductive Json where
  | null
  | bool (b : Bool)
  | num (n : Int)
  | str (s : String)
  | arr (elems : List Json)
  | obj (fields : List (String × Json))

/-- Escape a string for JSON output (model of the escaping done by
`JSON.stringify`; only backslash and double quote are handled, which is
enough for a faithful model on the inputs we consider). -/
def jsonEscape (s : String) : String :=
  (s.replace "\\" "\\\\").replace "\"" "\\\""

mutual

/-- Model of `JSON.stringify` on `Json` values. -/
def Json.render : Json → String
  | .null => "null"
  | .bool b => if b then "true" else "false"
  | .num n => toString n
  | .str s => "\"" ++ jsonEscape s ++ "\""
  | .arr elems => "[" ++ Json.renderElems elems ++ "]"
  | .obj fields => "\x7b" ++ Json.renderFields fields ++ "\x7d"

/-- Comma-separated rendering of a JSON array's elements. -/
def Json.renderElems : List Json → String
  | [] => ""
  | [e] => Json.render e
  | e :: rest => Json.render e ++ "," ++ Json.renderElems rest

/-- Comma-separated rendering of a JSON object's fields. -/
def Json.renderFields : List (String × Json) → String
  | [] => ""
  | [kv] => "\"" ++ jsonEscape kv.1 ++ "\":" ++ Json.render kv.2
  | kv :: rest =>
      "\"" ++ jsonEscape kv.1 ++ "\":" ++ Json.render kv.2 ++ "," ++
        Json.renderFields rest

end

/-- The type of `params.querystring` in the client's request parameters:
`string | Record<string, any> | undefined`. Record values are modelled as
string-valued association lists. -/
inductive QueryString where
  | undef
  | str (s : String)
  | obj (fields : List (String × String))
deriving Repr, DecidableEq

/-- Model of the Node `querystring` module's `stringify` on a record:
`key=value` pairs joined by `&` (percent-encoding elided; the claims do
not depend on it). -/
def qsModuleStringify (fields : List (String × String)) : String :=
  String.intercalate "&" (fields.map fun kv => kv.1 ++ "=" ++ kv.2)

/-- Embedding of `convertQueryString` from the client logging file:
`undefined` maps to `''` (via `qs ?? ''`), a string is returned as-is,
and a record is passed to `stringify`. -/
def convertQueryString : QueryString → String
  | .undef => ""
  | .str s => s
  | .obj fields => qsModuleStringify fields

/-- The type `RequestBody` of the client transport: a string, a `Buffer`,
a readable stream, or a plain JSON-serialisable object. -/
inductive RequestBody where
  | str (s : String)
  | buffer (bytes : List Nat)
  | stream
  | json (j : Json)

/-- Embedding of `ensureString`: a string is returned as-is, a `Buffer`
becomes `[buffer]`, a readable stream becomes `[stream]`, anything else
is `JSON.stringify`-ed. -/
def ensureString : RequestBody → String
  | .str s => s
  | .buffer _ => "[buffer]"
  | .stream => "[stream]"
  | .json j => Json.render j

/-- JavaScript truthiness of a `RequestBody` value: the empty string is
falsy; buffers, streams and objects are truthy. -/
def RequestBody.truthy : RequestBody → Bool
  | .str s => s ≠ ""
  | _ => true

/-- Truthiness of the optional `params.body` (`undefined` is falsy). -/
def bodyTruthy : Option RequestBody → Bool
  | none => false
  | some b => b.truthy

/-- The `error` object nested in an error response body (fields `type`
and `reason`, each possibly absent). -/
structure ErrorCause where
  type : Option String
  reason : Option String
deriving Repr, DecidableEq

/-- The response body as far as `getErrorMessage` inspects it: an
optional `error` object. -/
structure ResponseBody where
  error : Option ErrorCause
deriving Repr, DecidableEq

/-- The `event.meta.request.params` object: HTTP method, path,
querystring and optional body. -/
structure RequestParams where
  method : String
  path : String
  querystring : QueryString
  body : Option RequestBody

/-- The `event.meta.request` object. -/
structure RequestInfo where
  params : RequestParams

/-- The `event.meta` object. -/
structure RequestMeta where
  request : RequestInfo

/-- The client's `RequestEvent`: status code (`number | null`), response
body, and request metadata. -/
structure RequestEvent where
  statusCode : Option Int
  body : Option ResponseBody
  meta : RequestMeta

/-- JavaScript template rendering of `event.statusCode` (a `null` status
code interpolates as the string `null`). -/
def renderStatusCode : Option Int → String
  | none => "null"
  | some n => toString n

/-- JavaScript template rendering of a possibly-`undefined` string (an
absent value interpolates as the string `undefined`). -/
def renderOptionalString : Option String → String
  | none => "undefined"
  | some s => s

/-- Embedding of `getResponseMessage`: formats
`statusCode\nMETHOD path[?querystring][\nbody]` from the event's request
parameters. -/
def getResponseMessage (event : RequestEvent) : String :=
  let params := event.meta.request.params
  let querystring := convertQueryString params.querystring
  let url := params.path ++ (if querystring ≠ "" then "?" ++ querystring else "")
  let bodyPart :=
    match params.body with
    | some b => if b.truthy then "\n" ++ ensureString b else ""
    | none => ""
  renderStatusCode event.statusCode ++ "\n" ++ params.method ++ " " ++ url ++ bodyPart

/-- The `ApiError` union of the client library: a `ResponseError`
(detected by `instanceof`) or any other error carrying `name` and
`message`. -/
inductive ApiError where
  | responseError (message : String)
  | other (name : String) (message : String)
deriving Repr, DecidableEq

/-- The optional chain `event.body?.error?.type`. -/
def eventErrorType (event : RequestEvent) : Option String :=
  (event.body.bind ResponseBody.error).bind ErrorCause.type

/-- The optional chain `event.body?.error?.reason`. -/
def eventErrorReason (event : RequestEvent) : Option String :=
  (event.body.bind ResponseBody.error).bind ErrorCause.reason

/-- Embedding of `getErrorMessage`: a `ResponseError` is formatted as the
response message followed by ` [type]: reason` (with `error.message` as
fallback for a missing reason); any other error as `[name]: message`. -/
def getErrorMessage (error : ApiError) (event : RequestEvent) : String :=
  match error with
  | .responseError message =>
      getResponseMessage event ++ " [" ++ renderOptionalString (eventErrorType event)
        ++ "]: " ++ ((eventErrorReason event).getD message)
  | .other name message => "[" ++ name ++ "]: " ++ message

/-- A reified call to the logger made by the logging interceptor:
`logger.error(msg)` or `logger.debug(msg, \x7b tags \x7d)`. -/
inductive LogEntry where
  | errorLog (msg : String)
  | debugLog (msg : String) (tags : List String)
deriving Repr, DecidableEq

/-- The `'response'` handler installed by `addLogging`, reified: given
the `(error, event)` pair emitted by the client, the list of logger calls
it performs. -/
def responseHandler (logQueries : Bool) (error : Option ApiError)
    (event : Option RequestEvent) : List LogEntry :=
  match event with
  | some ev =>
      if logQueries then
        match error with
        | some err => [.errorLog (getErrorMessage err ev)]
        | none => [.debugLog (getResponseMessage ev) ["query"]]
      else []
  | none => []

/-- Model of the client library's `Client`: its construction options and
the list of handlers registered on the `'response'` event, each reified
as the logger calls it makes. -/
structure Client (ω : Type) where
  options : ω
  responseHandlers : List (Option ApiError → Option RequestEvent → List LogEntry)

/-- `new Client(options)`: no handlers registered yet. -/
def Client.new (options : ω) : Client ω :=
  { options := options, responseHandlers := [] }

/-- `client.on('response', handler)`: appends a handler. -/
def Client.on (c : Client ω)
    (h : Option ApiError → Option RequestEvent → List LogEntry) : Client ω :=
  { c with responseHandlers := c.responseHandlers ++ [h] }

/-- Embedding of `addLogging`: registers the logging handler on the
client's `'response'` event. -/
def addLogging (client : Client ω) (logQueries : Bool) : Client ω :=
  client.on (responseHandler logQueries)

/-- The `ElasticsearchClientConfig` as far as this file reads it: the
`logQueries` flag plus the remaining configuration, abstracted. -/
structure ElasticsearchClientConfig (α : Type) where
  logQueries : Bool
  rest : α

/-- Embedding of `configureClient`: parses the options (via the external
`parseClientOptions`, abstracted as a parameter), constructs the client
and attaches the logging interceptor. -/
def configureClient (parseClientOptions : ElasticsearchClientConfig α → Bool → ω)
    (config : ElasticsearchClientConfig α) (isScoped : Bool) : Client ω :=
  let clientOptions := parseClientOptions config isScoped
  let client := Client.new clientOptions
  addLogging client config.logQueries

/-- Firing the `'response'` event: every registered handler runs, in
registration order; the logger calls are concatenated. -/
def Client.emitResponse (c : Client ω) (error : Option ApiError)
    (event : Option RequestEvent) : List LogEntry :=
  (c.responseHandlers.map fun h => h error event).flatten

/-- A JS object literal as an association list (insertion order, unique
keys assumed as produced by the helpers). -/
abbrev JsObj : Type := List (String × Json)

/-- Setting a key on a JS object: an existing key is overwritten in
place, a new key is appended (the semantics of `\x7b ...a, k: v \x7d`). -/
def objSet (o : JsObj) (k : String) (v : Json) : JsObj :=
  if (List.any o fun kv => kv.1 = k) then
    List.map (fun kv => if kv.1 = k then (k, v) else kv) o
  else
    o ++ [(k, v)]

/-- `Object.keys` of a JS object. -/
def objKeys (o : JsObj) : List String :=
  o.map Prod.fst

/-- The drilldown's URL configuration: `\x7b template: string \x7d`. -/
structure UrlTemplate where
  template : String
deriving Repr, DecidableEq

/-- The `UrlDrilldownConfig`: a URL template and the `openInNewTab`
flag. -/
structure Config where
  url : UrlTemplate
  openInNewTab : Bool
deriving Repr, DecidableEq

/-- The four triggers the URL drilldown supports. -/
inductive UrlTrigger where
  | valueClick
  | selectRange
  | rowClick
  | contextMenu
deriving Repr, DecidableEq

/-- The navigation effect performed by `UrlDrilldown.execute`, reified:
`window.open(url, target, features)` or `await deps.navigateToUrl(url)`. -/
inductive NavEffect where
  | openWindow (url : String) (target : String) (features : String)
  | navigate (url : String)
deriving Repr, DecidableEq

/-- The `UrlDrilldownDeps` injected into the class (the `navigateToUrl`
callback is represented by the `NavEffect.navigate` constructor rather
than carried as data). -/
structure UrlDrilldownDeps where
  getGlobalScope : Unit → JsObj
  getSyntaxHelpDocsLink : Unit → String
  getVariablesHelpDocsLink : Unit → String

/-- The external helpers the drilldown calls, abstracted: the
`url_drilldown_scope` functions, `@kbn/std`'s `getFlattenedObject`, and
the `ui_actions_enhanced` template compiler and validator. Their
definitions live outside the analysed files; the claims treat them as
black boxes, so they are parameters of the embedding. `C` stands for the
action (or action-factory) context type. -/
structure UrlScopeFns (C : Type) where
  getPanelVariables : C → JsObj
  getEventScope : C → Json
  getEventVariableList : C → List String
  getFlattenedObject : JsObj → JsObj
  urlDrilldownCompileUrl : String → JsObj → String
  urlDrilldownValidateUrlTemplate : UrlTemplate → JsObj → Bool × Option String

namespace UrlDrilldown

/-- The constant `URL_DRILLDOWN`, the drilldown's `id`. -/
def URL_DRILLDOWN : String := "URL_DRILLDOWN"

/-- The class member `id`. -/
def id : String := URL_DRILLDOWN

/-- The class member `order`. -/
def order : Nat := 8

/-- Embedding of `supportedTriggers()`. -/
def supportedTriggers : List UrlTrigger :=
  [.valueClick, .selectRange, .rowClick, .contextMenu]

/-- Embedding of `createConfig`: the default configuration. -/
def createConfig : Config :=
  { url := { template := "" }, openInNewTab := false }

/-- Embedding of `isConfigValid`: `!!config.url.template`, i.e. the
template string is truthy (non-empty). -/
def isConfigValid (config : Config) : Bool :=
  config.url.template ≠ ""

/-- Embedding of `getRuntimeVariables`: the spread
`\x7b ...getGlobalScope(), context: \x7b panel: getPanelVariables(context) \x7d,
event: getEventScope(context) \x7d`. -/
def getRuntimeVariables (fns : UrlScopeFns C) (deps : UrlDrilldownDeps)
    (context : C) : JsObj :=
  objSet
    (objSet (deps.getGlobalScope ())
      "context" (Json.obj [("panel", Json.obj (fns.getPanelVariables context))]))
    "event" (fns.getEventScope context)

/-- Embedding of `isCompatible`: validates the template against the
runtime variables; returns the validity verdict together with the
`console.warn` messages emitted (one message exactly when invalid). -/
def isCompatible (fns : UrlScopeFns C) (deps : UrlDrilldownDeps)
    (config : Config) (context : C) : Bool × List String :=
  let scope := getRuntimeVariables fns deps context
  let v := fns.urlDrilldownValidateUrlTemplate config.url scope
  if v.1 then (true, [])
  else
    (false,
      ["UrlDrilldown [" ++ config.url.template ++ "] is not valid. Error [" ++
        renderOptionalString v.2 ++ "]. Skipping execution."])

/-- Embedding of `getHref`: compiles the template against the runtime
variables. -/
def getHref (fns : UrlScopeFns C) (deps : UrlDrilldownDeps)
    (config : Config) (context : C) : String :=
  let scope := getRuntimeVariables fns deps context
  fns.urlDrilldownCompileUrl config.url.template scope

/-- Embedding of `execute`: compiles the URL, then either
`window.open(url, '_blank', 'noopener')` or
`await deps.navigateToUrl(url)`. -/
def execute (fns : UrlScopeFns C) (deps : UrlDrilldownDeps)
    (config : Config) (context : C) : NavEffect :=
  let url := fns.urlDrilldownCompileUrl config.url.template
    (getRuntimeVariables fns deps context)
  if config.openInNewTab then .openWindow url "_blank" "noopener"
  else .navigate url

/-- Ascending string sort, the model of JavaScript `Array.sort()` on
string arrays. -/
def sortStrings (l : List String) : List String :=
  l.mergeSort (fun a b => a ≤ b)

/-- Embedding of `getVariableList`: event variable names, panel variable
keys prefixed with `context.panel.`, and global-scope keys, each group
sorted, concatenated in that order. -/
def getVariableList (fns : UrlScopeFns C) (deps : UrlDrilldownDeps)
    (context : C) : List String :=
  let eventVariables := fns.getEventVariableList context
  let contextVariables :=
    (objKeys (fns.getFlattenedObject (fns.getPanelVariables context))).map
      (fun key => "context.panel." ++ key)
  let globalVariables := objKeys (fns.getFlattenedObject (deps.getGlobalScope ()))
  sortStrings eventVariables ++ sortStrings contextVariables ++
    sortStrings globalVariables

end UrlDrilldown

namespace UrlDrilldown

/-- State-passing form of `supportedTriggers()`: the method body reads
nothing and assigns nothing, so it returns the instance state (`deps`)
unchanged alongside its result. -/
def supportedTriggersSt (deps : UrlDrilldownDeps) :
    List UrlTrigger × UrlDrilldownDeps :=
  (supportedTriggers, deps)

/-- State-passing form of `isCompatible`: the body only reads
`this.deps`, so the post-state equals the pre-state. -/
def isCompatibleSt (fns : UrlScopeFns C) (deps : UrlDrilldownDeps)
    (config : Config) (context : C) :
    (Bool × List String) × UrlDrilldownDeps :=
  (isCompatible fns deps config context, deps)

/-- State-passing form of `getHref`. -/
def getHrefSt (fns : UrlScopeFns C) (deps : UrlDrilldownDeps)
    (config : Config) (context : C) : String × UrlDrilldownDeps :=
  (getHref fns deps config context, deps)

/-- State-passing form of `execute`. -/
def executeSt (fns : UrlScopeFns C) (deps : UrlDrilldownDeps)
    (config : Config) (context : C) : NavEffect × UrlDrilldownDeps :=
  (execute fns deps config context, deps)

end UrlDrilldown

/-- Modelled from the spec: the host-defined drilldown interface, the
members `id`, `order`, `supportedTriggers`, `isCompatible`, `getHref`
and `execute` dictated by the action-framework plugin
(`ui_actions_enhanced`), whose declaration is not among the analysed
files. -/
structure DrilldownInterface (C : Type) where
  id : String
  order : Nat
  supportedTriggers : Unit → List UrlTrigger
  isCompatible : Config → C → Bool × List String
  getHref : Config → C → String
  execute : Config → C → NavEffect

/-- The interface record the `UrlDrilldown` class provides to the host,
each member given by the corresponding class member. -/
def UrlDrilldown.toInterface (fns : UrlScopeFns C) (deps : UrlDrilldownDeps) :
    DrilldownInterface C :=
  { id := UrlDrilldown.id
    order := UrlDrilldown.order
    supportedTriggers := fun _ => UrlDrilldown.supportedTriggers
    isCompatible := UrlDrilldown.isCompatible fns deps
    getHref := UrlDrilldown.getHref fns deps
    execute := UrlDrilldown.execute fns deps }

/-- A reified registration call made by the visualization factory once
invoked: `expressions.registerFunction` or `expressions.registerRenderer`.
`E` is the type of expression function definitions, `R` of renderers. -/
inductive FactoryEffect (E R : Type) where
  | registerFunction (f : E)
  | registerRenderer (r : R)

/-- What the async visualization factory produces when invoked: the
registration calls it performs and the value it returns. `V` is the type
of visualization definitions. -/
structure FactoryOutcome (E R V : Type) where
  effects : List (FactoryEffect E R)
  returned : V

/-- The dependencies object passed to `getDatatableRenderer`:
`\x7b formatFactory, getType \x7d`. -/
structure DatatableRendererDeps (F G : Type) where
  formatFactory : F
  getType : G

/-- The `'../async_services'` module as destructured by `setup`. -/
structure AsyncServices (E R V F G : Type) where
  datatable : E
  datatableColumns : E
  getDatatableRenderer : DatatableRendererDeps F G → R
  datatableVisualization : V

/-- The agg types registry of the data plugin (`aggs.types`), as far as
`setup` reads it: its `get` member. -/
structure AggTypesRegistry (G : Type) where
  get : G

/-- The `aggs` member of the search start contract. -/
structure AggsStart (G : Type) where
  types : AggTypesRegistry G

/-- The `search` member of the data plugin start contract. -/
structure SearchStart (G : Type) where
  search : AggsStart G

/-- The `DataPublicPluginStart` as far as `setup` reads it. -/
structure DataPublicPluginStart (G : Type) where
  search : SearchStart G

/-- The start-plugins object of `CoreSetup<...>`: its `data` member. -/
structure DatatableVisualizationPluginStartPlugins (G : Type) where
  data : DataPublicPluginStart G

/-- The `CoreSetup` contract as far as `setup` reads it:
`getStartServices` yielding the core start contract (unused, abstracted
as `CS`) and the start plugins. The `Promise` is modelled as an already
available value and `.then` as application. -/
structure CoreSetup (CS G : Type) where
  getStartServices : Unit → CS × DatatableVisualizationPluginStartPlugins G

namespace DatatableVisualization

/-- Embedding of `DatatableVisualization.setup`. Its only own effect is
the single `editorFrame.registerVisualization(factory)` call, reified as
the returned singleton list of factories; the dynamic import of
`'../async_services'` is the function parameter `importAsyncServices`,
invoked only inside the factory. Invoking the factory imports the
module, registers the `datatableColumns` and `datatable` expression
functions and the datatable renderer, and returns
`datatableVisualization`. -/
def setup (core : CoreSetup CS G)
    (formatFactory : F)
    (importAsyncServices : Unit → AsyncServices E R V F G) :
    List (Unit → FactoryOutcome E R V) :=
  [fun _ =>
    let m := importAsyncServices ()
    { effects :=
        [.registerFunction m.datatableColumns,
         .registerFunction m.datatable,
         .registerRenderer (m.getDatatableRenderer
           { formatFactory := formatFactory
             getType := (core.getStartServices ()).2.data.search.search.types.get })]
      returned := m.datatableVisualization }]

end DatatableVisualization

/-- The body part of the claimed response-message format: the body
rendered as a string when present, empty otherwise. -/
def specBodyAsString : Option RequestBody → String
  | some b => ensureString b
  | none => ""

/-- The response-message format as the specification states it: the
string `statusCode\nMETHOD path`, with `?querystring` appended to the
path exactly when the converted querystring is non-empty, and
`\n` plus the body rendered as a string appended exactly when the
request params carry a truthy body. -/
def specResponseMessage (event : RequestEvent) : String :=
  let params := event.meta.request.params
  let qs := convertQueryString params.querystring
  renderStatusCode event.statusCode ++ "\n" ++ params.method ++ " " ++ params.path
    ++ (if qs = "" then "" else "?" ++ qs)
    ++ (if bodyTruthy params.body then "\n" ++ specBodyAsString params.body else "")

/-- The error-message format as the specification states it. -/
def specErrorMessage (error : ApiError) (event : RequestEvent) : String :=
  match error with
  | .responseError message =>
      getResponseMessage event ++ " [" ++ renderOptionalString (eventErrorType event)
        ++ "]: " ++
        (match eventErrorReason event with
         | some reason => reason
         | none => message)
  | .other name message => "[" ++ name ++ "]: " ++ message

/-- C1: for every response event, `getResponseMessage` returns exactly
the pure string `statusCode\nMETHOD path`, with `?querystring` appended
to the path exactly when the converted querystring is non-empty (an
undefined querystring converts to the empty string, a string querystring
is used as-is, an object querystring is stringified — this is
`convertQueryString`), and with a newline plus the body rendered as a
string appended exactly when the request params carry a truthy body; as
a pure function of the event it performs no other effect. -/
theorem getResponseMessage_is_pure_format (event : RequestEvent) :
    getResponseMessage event = specResponseMessage event := by
  unfold getResponseMessage specResponseMessage specBodyAsString bodyTruthy
  cases hb : event.meta.request.params.body with
  | none =>
      by_cases hq : convertQueryString event.meta.request.params.querystring = "" <;>
        simp [hb, hq, String.append_assoc]
  | some b =>
      cases htr : b.truthy <;>
      by_cases hq : convertQueryString event.meta.request.params.querystring = "" <;>
        simp [hb, hq, htr, String.append_assoc]

/-- Witness for C1 at a concrete event exercising the querystring and
body branches. -/
theorem getResponseMessage_is_pure_format_checked :
    getResponseMessage
      { statusCode := some 200
        body := none
        meta := { request := { params :=
          { method := "GET"
            path := "/_search"
            querystring := .obj [("q", "k")]
            body := some (.str "x") } } } } = "200\nGET /_search?q=k\nx" := by
  decide

/-- C4: `getErrorMessage` is a pure formatter of the upstream error: a
`ResponseError` yields `getResponseMessage event` followed by
` [body.error.type]: body.error.reason`, falling back to the error's own
message when the body's error reason is absent; any other error yields
`[name]: message`. -/
theorem getErrorMessage_is_pure_format (error : ApiError) (event : RequestEvent) :
    getErrorMessage error event = specErrorMessage error event := by
  cases error with
  | responseError message =>
      unfold getErrorMessage specErrorMessage
      cases h : eventErrorReason event <;> simp [h, Option.getD]
  | other name message => rfl

/-- Concrete evaluation of C4: a `ResponseError` with a missing reason
falls back to the error's own message and renders an absent type as
`undefined`. -/
theorem getErrorMessage_is_pure_format_checked :
    getErrorMessage (.responseError "boom")
      { statusCode := some 500
        body := some { error := some { type := none, reason := none } }
        meta := { request := { params :=
          { method := "GET", path := "/x", querystring := .undef, body := none } } } }
      = "500\nGET /x [undefined]: boom" := by
  decide

/-- C2: `configureClient` attaches the logging interceptor to the
client's `'response'` events: firing the event with a defined event and
`logQueries` true logs a defined error via `logger.error` with
`getErrorMessage`, and a null error via `logger.debug` with
`getResponseMessage` tagged `['query']`; with an undefined event or
`logQueries` false nothing is logged; and the interceptor is the only
handler the configured client carries. -/
theorem configureClient_logs_responses {α ω : Type}
    (parseClientOptions : ElasticsearchClientConfig α → Bool → ω)
    (config : ElasticsearchClientConfig α) (isScoped : Bool)
    (error : Option ApiError) (event : Option RequestEvent) :
    (configureClient parseClientOptions config isScoped).responseHandlers.length = 1 ∧
    (configureClient parseClientOptions config isScoped).emitResponse error event =
      (match event, error with
       | some ev, some err =>
           if config.logQueries then [LogEntry.errorLog (getErrorMessage err ev)] else []
       | some ev, none =>
           if config.logQueries
           then [LogEntry.debugLog (getResponseMessage ev) ["query"]] else []
       | none, _ => []) := by
  refine ⟨rfl, ?_⟩
  cases event with
  | none =>
      simp [configureClient, addLogging, Client.on, Client.new, Client.emitResponse,
        responseHandler]
  | some ev =>
      cases error <;>
        simp [configureClient, addLogging, Client.on, Client.new, Client.emitResponse,
          responseHandler]

/-- Concrete evaluation of C2: with `logQueries` false nothing is
logged, with `logQueries` true a null error logs a debug entry tagged
`query`. -/
theorem configureClient_logs_responses_checked :
    (configureClient (fun (_ : ElasticsearchClientConfig Unit) (_ : Bool) => ())
        { logQueries := false, rest := () } false).emitResponse none
        (some { statusCode := some 200
                body := none
                meta := { request := { params :=
                  { method := "GET", path := "/a", querystring := .undef,
                    body := none } } } }) = [] ∧
    (configureClient (fun (_ : ElasticsearchClientConfig Unit) (_ : Bool) => ())
        { logQueries := true, rest := () } false).emitResponse none
        (some { statusCode := some 200
                body := none
                meta := { request := { params :=
                  { method := "GET", path := "/a", querystring := .undef,
                    body := none } } } })
      = [LogEntry.debugLog "200\nGET /a" ["query"]] := by
  exact ⟨rfl, rfl⟩

/-- C3: the `UrlDrilldown` class provides the host-dictated interface
members `id` (the constant `URL_DRILLDOWN`), `order` (8),
`supportedTriggers` (the four URL triggers), `isCompatible`, `getHref`
and `execute` (each given by the corresponding embedded method), and it
has no internal state machine: every method leaves the instance state
(`deps`) unchanged. -/
theorem urlDrilldown_implements_host_interface {C : Type}
    (fns : UrlScopeFns C) (deps : UrlDrilldownDeps) :
    (UrlDrilldown.toInterface fns deps).id = "URL_DRILLDOWN" ∧
    (UrlDrilldown.toInterface fns deps).order = 8 ∧
    (UrlDrilldown.toInterface fns deps).supportedTriggers () =
      [.valueClick, .selectRange, .rowClick, .contextMenu] ∧
    (∀ config context,
      (UrlDrilldown.toInterface fns deps).isCompatible config context =
        UrlDrilldown.isCompatible fns deps config context) ∧
    (∀ config context,
      (UrlDrilldown.toInterface fns deps).getHref config context =
        UrlDrilldown.getHref fns deps config context) ∧
    (∀ config context,
      (UrlDrilldown.toInterface fns deps).execute config context =
        UrlDrilldown.execute fns deps config context) ∧
    (UrlDrilldown.supportedTriggersSt deps).2 = deps ∧
    (∀ config context,
      (UrlDrilldown.isCompatibleSt fns deps config context).2 = deps) ∧
    (∀ config context, (UrlDrilldown.getHrefSt fns deps config context).2 = deps) ∧
    (∀ config context, (UrlDrilldown.executeSt fns deps config context).2 = deps) :=
  ⟨rfl, rfl, rfl, fun _ _ => rfl, fun _ _ => rfl, fun _ _ => rfl, rfl,
    fun _ _ => rfl, fun _ _ => rfl, fun _ _ => rfl⟩

/-- C5: `execute` navigates to the URL obtained by compiling the
config's template against the runtime variables derived from the context
(the global scope merged with the `context.panel` variables and the
event scope): in a new tab via `window.open(url, '_blank', 'noopener')`
when `openInNewTab` is set, otherwise via `navigateToUrl(url)`. -/
theorem urlDrilldown_execute_compiles_and_navigates {C : Type}
    (fns : UrlScopeFns C) (deps : UrlDrilldownDeps)
    (config : Config) (context : C) :
    UrlDrilldown.execute fns deps config context =
      (let scope :=
        objSet
          (objSet (deps.getGlobalScope ())
            "context" (Json.obj [("panel", Json.obj (fns.getPanelVariables context))]))
          "event" (fns.getEventScope context)
       let url := fns.urlDrilldownCompileUrl config.url.template scope
       if config.openInNewTab then NavEffect.openWindow url "_blank" "noopener"
       else NavEffect.navigate url) := rfl

/-- C6: `createConfig` returns exactly the configuration with the empty
URL template and `openInNewTab` false; `Config` consists of those two
fields only, so no operation can add further fields. -/
theorem urlDrilldown_createConfig_default :
    UrlDrilldown.createConfig = { url := { template := "" }, openInNewTab := false } := rfl

/-- C9: `isConfigValid` holds exactly for a non-empty URL template, and
in particular the default configuration is judged invalid. -/
theorem urlDrilldown_isConfigValid_iff_nonempty (config : Config) :
    (UrlDrilldown.isConfigValid config = true ↔ config.url.template ≠ "") ∧
    UrlDrilldown.isConfigValid UrlDrilldown.createConfig = false := by
  constructor
  · simp [UrlDrilldown.isConfigValid]
  · rfl

/-- Concrete scope functions used to evaluate the drilldown claims: the
template compiler returns the template itself, scopes are empty. -/
def sampleScopeFns : UrlScopeFns Unit :=
  { getPanelVariables := fun _ => []
    getEventScope := fun _ => Json.null
    getEventVariableList := fun _ => []
    getFlattenedObject := fun o => o
    urlDrilldownCompileUrl := fun template _ => template
    urlDrilldownValidateUrlTemplate := fun _ _ => (true, none) }

/-- Concrete dependencies used to evaluate the drilldown claims. -/
def sampleDeps : UrlDrilldownDeps :=
  { getGlobalScope := fun _ => []
    getSyntaxHelpDocsLink := fun _ => ""
    getVariablesHelpDocsLink := fun _ => "" }

/-- C8: with `openInNewTab` false, the URL `execute` navigates to is
exactly the URL `getHref` returns: both compile the template against
the same runtime variables. -/
theorem urlDrilldown_execute_agrees_with_getHref {C : Type}
    (fns : UrlScopeFns C) (deps : UrlDrilldownDeps)
    (config : Config) (context : C)
    (h : config.openInNewTab = false) :
    UrlDrilldown.execute fns deps config context =
      NavEffect.navigate (UrlDrilldown.getHref fns deps config context) := by
  unfold UrlDrilldown.execute UrlDrilldown.getHref
  simp [h]

/-- Witness for C8 at a concrete configuration and context. -/
theorem urlDrilldown_execute_agrees_with_getHref_witness :
    ({ url := { template := "https://example.com" }, openInNewTab := false } :
        Config).openInNewTab = false ∧
    UrlDrilldown.execute sampleScopeFns sampleDeps
        { url := { template := "https://example.com" }, openInNewTab := false } () =
      NavEffect.navigate (UrlDrilldown.getHref sampleScopeFns sampleDeps
        { url := { template := "https://example.com" }, openInNewTab := false } ()) :=
  ⟨rfl, urlDrilldown_execute_agrees_with_getHref sampleScopeFns sampleDeps
    { url := { template := "https://example.com" }, openInNewTab := false } () rfl⟩

/-- `sortStrings` yields an ascending list. -/
theorem sortStrings_sorted_le (l : List String) :
    List.Sorted (fun a b => a ≤ b) (UrlDrilldown.sortStrings l) :=
  List.sorted_mergeSort' l

/-- `sortStrings` is a permutation of its input. -/
theorem sortStrings_perm_self (l : List String) :
    (UrlDrilldown.sortStrings l).Perm l :=
  List.mergeSort_perm l _

/-- C10: `getVariableList` is the concatenation, in fixed order, of
three each-independently-sorted segments: the event variable names
sorted ascending, the flattened panel variable keys prefixed with
`context.panel.` sorted ascending, and the flattened global-scope keys
sorted ascending; each segment is a sorted permutation of its source
key list. -/
theorem urlDrilldown_getVariableList_three_sorted_segments {C : Type}
    (fns : UrlScopeFns C) (deps : UrlDrilldownDeps) (context : C) :
    UrlDrilldown.getVariableList fns deps context =
      UrlDrilldown.sortStrings (fns.getEventVariableList context) ++
      UrlDrilldown.sortStrings
        ((objKeys (fns.getFlattenedObject (fns.getPanelVariables context))).map
          (fun key => "context.panel." ++ key)) ++
      UrlDrilldown.sortStrings
        (objKeys (fns.getFlattenedObject (deps.getGlobalScope ()))) ∧
    List.Sorted (fun a b => a ≤ b)
      (UrlDrilldown.sortStrings (fns.getEventVariableList context)) ∧
    (UrlDrilldown.sortStrings (fns.getEventVariableList context)).Perm
      (fns.getEventVariableList context) ∧
    List.Sorted (fun a b => a ≤ b)
      (UrlDrilldown.sortStrings
        ((objKeys (fns.getFlattenedObject (fns.getPanelVariables context))).map
          (fun key => "context.panel." ++ key))) ∧
    (UrlDrilldown.sortStrings
        ((objKeys (fns.getFlattenedObject (fns.getPanelVariables context))).map
          (fun key => "context.panel." ++ key))).Perm
      ((objKeys (fns.getFlattenedObject (fns.getPanelVariables context))).map
        (fun key => "context.panel." ++ key)) ∧
    List.Sorted (fun a b => a ≤ b)
      (UrlDrilldown.sortStrings
        (objKeys (fns.getFlattenedObject (deps.getGlobalScope ())))) ∧
    (UrlDrilldown.sortStrings
        (objKeys (fns.getFlattenedObject (deps.getGlobalScope ())))).Perm
      (objKeys (fns.getFlattenedObject (deps.getGlobalScope ()))) :=
  ⟨rfl, sortStrings_sorted_le _, sortStrings_perm_self _, sortStrings_sorted_le _,
    sortStrings_perm_self _, sortStrings_sorted_le _, sortStrings_perm_self _⟩

/-- C7: `setup` performs exactly one `editorFrame.registerVisualization`
call and no other registration effect; the expression functions
(`datatableColumns` then `datatable`) and the datatable renderer are
registered with the expressions plugin only when the passed async
factory is invoked, and the factory then returns
`datatableVisualization` from the dynamically imported module. -/
theorem datatableVisualization_setup_registers_lazily
    {CS G F E R V : Type} (core : CoreSetup CS G) (formatFactory : F)
    (importAsyncServices : Unit → AsyncServices E R V F G) :
    ∃ factory,
      DatatableVisualization.setup core formatFactory importAsyncServices = [factory] ∧
      factory () =
        { effects :=
            [.registerFunction (importAsyncServices ()).datatableColumns,
             .registerFunction (importAsyncServices ()).datatable,
             .registerRenderer ((importAsyncServices ()).getDatatableRenderer
               { formatFactory := formatFactory
                 getType :=
                   (core.getStartServices ()).2.data.search.search.types.get })]
          returned := (importAsyncServices ()).datatableVisualization } :=
  ⟨_, rfl, rfl⟩
